import Mathlib

/-!
Verification of the reddit-x-sentiment-analyzer repository.

Shallow embedding of the two source files:
  * `src/reddit_x_sentiment_analyzer.py` — platform detection, scraped-text
    filtering, and free-text parsing of the reasoning backend's reply
    (`parse_sentiment_response`).
  * `src/automated_daily_sentiment_reporter.py` — sentiment statistics,
    trending topics, hot takes, report generation and evidence persistence.

Modelling conventions:
  * Python `str` becomes `String` / `List Char`; the regular expressions used
    by the parser operate over the ASCII ranges of `\w`, `\s` and `[0-9.]`
    (the source's prompts and the parsed labels are ASCII).
  * Python floats become exact rationals `ℚ`.  Every claim checked here
    (range membership, defaulting, percentage drift bounds) is insensitive to
    the sub-`1e-15` gap between a short decimal numeral and its binary
    floating value, so the rational model is faithful for these properties.
  * `dict.get` on the loosely-typed record dictionaries becomes `Option`
    fields with `Option.getD` for defaulted access.
  * File writes become values: a CSV file is `Option CsvFile` (`none` = the
    write was skipped, no file created).
-/

/-! ### Python character classes (ASCII fragment used by the source) -/

/-- ASCII fragment of Python regex `\s` (also `str.strip`'s default set). -/
def isPySpace (c : Char) : Bool :=
  c = ' ' || c = '\t' || c = '\n' || c = '\r' || c = '\x0b' || c = '\x0c'

/-- ASCII fragment of Python regex `\w`: letters, digits, underscore. -/
def isWordChar (c : Char) : Bool :=
  c.isAlphanum || c = '_'

/-- The character class `[0-9.]` of the confidence regex. -/
def isConfChar (c : Char) : Bool :=
  c.isDigit || c = '.'

/-- Python `str.lower` on the ASCII fragment. -/
def pyLower (s : List Char) : List Char :=
  s.map Char.toLower

/-- Python `str.strip()`: drop whitespace from both ends. -/
def pyStrip (s : List Char) : List Char :=
  ((s.dropWhile isPySpace).reverse.dropWhile isPySpace).reverse

/-- Decimal digits to a natural number (most significant first). -/
def digitsToNat (s : List Char) : ℕ :=
  s.foldl (fun acc c => acc * 10 + (c.toNat - 48)) 0

/-- Python `float()` restricted to the strings the confidence capture group
can produce (non-empty strings over `[0-9.]`): the conversion succeeds iff
the string holds at least one digit and at most one dot, and yields the
exact decimal value; otherwise `float` raises `ValueError`, modelled as
`none`. -/
def pyFloat (s : List Char) : Option ℚ :=
  if s.all isConfChar ∧ s.any Char.isDigit ∧ s.count '.' ≤ 1 then
    let ip := s.takeWhile (fun c => c ≠ '.')
    let fp := (s.dropWhile (fun c => c ≠ '.')).drop 1
    some ((digitsToNat ip : ℚ) + (digitsToNat fp : ℚ) / (10 : ℚ) ^ fp.length)
  else
    none

/-! ### The three `re.search` patterns of `parse_sentiment_response`

Each pattern is a case-insensitive literal label, then `\s*`, then a capture
group.  `\s` is disjoint from both `\w` and `[0-9.]`, so the greedy `\s*`
never has to backtrack for those two groups: a match at a position succeeds
iff the label matches there and at least one group character follows the
maximal whitespace run.  `re.search` scans positions left to right and
returns the first successful match. -/

/-- Case-insensitive literal prefix match; returns the remaining suffix. -/
def ciPrefix : List Char → List Char → Option (List Char)
  | [], s => some s
  | _ :: _, [] => none
  | p :: ps, c :: cs => if p.toLower = c.toLower then ciPrefix ps cs else none

/-- Attempt `Sentiment:\s*(\w+)` (IGNORECASE) at the head of `s`. -/
def trySentimentAt (s : List Char) : Option (List Char) :=
  match ciPrefix "sentiment:".data s with
  | none => none
  | some rest =>
    let w := (rest.dropWhile isPySpace).takeWhile isWordChar
    if w = [] then none else some w

/-- Attempt `Confidence:\s*([0-9.]+)` (IGNORECASE) at the head of `s`. -/
def tryConfidenceAt (s : List Char) : Option (List Char) :=
  match ciPrefix "confidence:".data s with
  | none => none
  | some rest =>
    let w := (rest.dropWhile isPySpace).takeWhile isConfChar
    if w = [] then none else some w

/-- Attempt `Reasoning:\s*(.+)` (IGNORECASE | DOTALL) at the head of `s`.
With DOTALL the greedy `(.+)` runs to the end of the string; `\s*` consumes
the maximal whitespace run but backtracks one character when nothing would be
left for `(.+)`. -/
def tryReasoningAt (s : List Char) : Option (List Char) :=
  match ciPrefix "reasoning:".data s with
  | none => none
  | some rest =>
    if rest = [] then none
    else
      let k := (rest.takeWhile isPySpace).length
      some (rest.drop (min k (rest.length - 1)))

/-- Model of `re.search`: first position (left to right, end position included) where
the pattern matches. -/
def searchFirst (tryAt : List Char → Option (List Char)) : List Char → Option (List Char)
  | [] => tryAt []
  | c :: cs =>
    match tryAt (c :: cs) with
    | some r => some r
    | none => searchFirst tryAt cs

/-! ### `parse_sentiment_response` (src/reddit_x_sentiment_analyzer.py:217)

The Python body initialises the three defaults, then inside one `try` block
extracts sentiment, confidence and reasoning in that order.  `re.search` and
the string methods cannot raise; the only raising operation is
`float(confidence_match.group(1))`.  When it raises `ValueError`, the
`except` clause catches it, so the assignments already made (the sentiment)
survive and the remaining statements (the reasoning extraction) are skipped.
The returned triple is `(sentiment, confidence, reasoning)`. -/

def parse_sentiment_response (response : String) : String × ℚ × String :=
  let r := response.data
  let sentiment :=
    match searchFirst trySentimentAt r with
    | some w => String.mk (pyLower w)
    | none => "neutral"
  match searchFirst tryConfidenceAt r with
  | some numTxt =>
    match pyFloat numTxt with
    | none => (sentiment, 1/2, "Unable to parse response")
    | some c =>
      let reasoning :=
        match searchFirst tryReasoningAt r with
        | some g => String.mk ((pyStrip g).take 200)
        | none => "Unable to parse response"
      (sentiment, c, reasoning)
  | none =>
    let reasoning :=
      match searchFirst tryReasoningAt r with
      | some g => String.mk ((pyStrip g).take 200)
      | none => "Unable to parse response"
    (sentiment, 1/2, reasoning)

/-- The sentiment field on its own: lower-cased first `\w+` word after the
first `Sentiment:` label, defaulting to `"neutral"`. -/
def extractSentiment (response : String) : String :=
  match searchFirst trySentimentAt response.data with
  | some w => String.mk (pyLower w)
  | none => "neutral"

/-- The reasoning field on its own: stripped, 200-character-truncated capture
after the first `Reasoning:` label, defaulting to the documented message. -/
def extractReasoning (response : String) : String :=
  match searchFirst tryReasoningAt response.data with
  | some g => String.mk ((pyStrip g).take 200)
  | none => "Unable to parse response"

/-- The raw capture of the confidence regex, before `float()` conversion. -/
def confidenceCapture (response : String) : Option (List Char) :=
  searchFirst tryConfidenceAt response.data

/-! ### `detect_platform` (src/reddit_x_sentiment_analyzer.py:72)

`urlparse(url).netloc`: if the URL starts with `scheme:` (first char ASCII
letter, all scheme chars in `[A-Za-z0-9+.-]`, a colon present at a positive
index) the scheme is removed; the netloc is then the text between a leading
`//` and the next `/`, `?` or `#`, and empty when no `//` follows. -/

/-- Characters allowed in a URL scheme by `urllib.parse`. -/
def isSchemeChar (c : Char) : Bool :=
  c.isAlphanum || c = '+' || c = '-' || c = '.'

/-- Remove a leading `scheme:` when present, as `urlsplit` does. -/
def splitScheme (u : List Char) : List Char :=
  let pre := u.takeWhile (fun c => c != ':')
  if decide (pre.length < u.length) && !pre.isEmpty && pre.all isSchemeChar &&
      (match pre with | c :: _ => c.isAlpha | [] => false) then
    u.drop (pre.length + 1)
  else
    u

/-- The value `urlparse(url).netloc` for the URL shapes the detector receives. -/
def urlparse_netloc (u : List Char) : List Char :=
  let rest := splitScheme u
  if rest.take 2 = ['/', '/'] then
    (rest.drop 2).takeWhile (fun c => c != '/' && c != '?' && c != '#')
  else
    []

/-- Tests whether `needle` occurs at the head of `hay`. -/
def isPrefixList : List Char → List Char → Bool
  | [], _ => true
  | _ :: _, [] => false
  | a :: as, b :: bs => a == b && isPrefixList as bs

/-- Python's substring test `needle in hay`. -/
def listContains (needle : List Char) : List Char → Bool
  | [] => needle.isEmpty
  | c :: cs => isPrefixList needle (c :: cs) || listContains needle cs

/-- The lower-cased network host the detector matches against. -/
def detect_domain (url : String) : List Char :=
  pyLower (urlparse_netloc url.data)

/-- Model of `detect_platform`: `'reddit.com' in domain` → reddit, else
`'twitter.com' in domain or 'x.com' in domain` → x, else
`ValueError(f"Unsupported platform: {domain}")`, modelled as `Except` with
the message carrying the offending host. -/
def detect_platform (url : String) : Except String String :=
  let domain := detect_domain url
  if listContains "reddit.com".data domain then Except.ok "reddit"
  else if listContains "twitter.com".data domain || listContains "x.com".data domain then
    Except.ok "x"
  else
    Except.error ("Unsupported platform: " ++ String.mk domain)

/-! ### Scraped-text filtering
(src/reddit_x_sentiment_analyzer.py:114-117 and 156-159)

Both `scrape_reddit_comments` and `scrape_x_replies` run the same loop over
the captured elements: `text = element.text.strip()`; the stripped text is
appended iff `text and len(text) > 10`. -/

def filter_scraped : List String → List String
  | [] => []
  | t :: ts =>
    let text := String.mk (pyStrip t.data)
    if text ≠ "" ∧ 10 < text.length then text :: filter_scraped ts
    else filter_scraped ts

/-! ### `automated_daily_sentiment_reporter.py`

The reporter works on loosely-typed record dictionaries; the keys it reads
via `dict.get` become `Option` fields.  `item.get(k, d)` is `Option.getD`;
`item.get(k)` compared with a string is an `Option` equality (an absent key
compares unequal to every string, like Python's `None`). -/

structure Record where
  timestamp : Option String
  platform : Option String
  source_url : Option String
  text : Option String
  sentiment : Option String
  intensity : Option String
  confidence : Option ℚ
  emotional_indicators : Option (List String)
  reasoning : Option String
deriving DecidableEq

/-- Python `round(x, 1)` modelled on exact rationals.  Python rounds the
binary float half-to-even; the tie-breaking choice never matters for the
properties proved here (only `|round1 x - x| ≤ 1/20` is used). -/
def round1 (x : ℚ) : ℚ :=
  (round (x * 10) : ℤ) / 10

structure SentimentStats where
  positive : ℚ
  negative : ℚ
  neutral : ℚ
  count : ℕ
deriving DecidableEq

/-- Model of `calculate_sentiment_stats` (line 125): empty data gives all-zero stats;
otherwise each percentage is `round(n/total*100, 1)` with the neutral count
defined by subtraction. -/
def calculate_sentiment_stats (data : List Record) : SentimentStats :=
  if data.isEmpty then ⟨0, 0, 0, 0⟩
  else
    let total := data.length
    let positive := (data.filter (fun item => item.sentiment == some "positive")).length
    let negative := (data.filter (fun item => item.sentiment == some "negative")).length
    let neutral := total - positive - negative
    ⟨round1 ((positive : ℚ) / (total : ℚ) * 100),
     round1 ((negative : ℚ) / (total : ℚ) * 100),
     round1 ((neutral : ℚ) / (total : ℚ) * 100),
     total⟩

/-- Model of `calculate_overall_stats` (line 142): stats of the concatenation. -/
def calculate_overall_stats (reddit_data x_data : List Record) : SentimentStats :=
  calculate_sentiment_stats (reddit_data ++ x_data)

structure TrendingTopic where
  topic : String
  mentions : ℕ
  sentiment : String
deriving DecidableEq

/-- Model of `extract_trending_topics` (line 147): the body ignores both arguments and
returns the hard-coded placeholder list (its own comment reads
"For now, return placeholder structure"). -/
def extract_trending_topics (reddit_data x_data : List Record) : List TrendingTopic :=
  [⟨"AI Technology", 156, "positive"⟩,
   ⟨"Economic Policy", 89, "negative"⟩,
   ⟨"Climate Change", 67, "neutral"⟩]

/-- The hot-take predicate of line 163:
`item.get('confidence', 0) > 0.8 and item.get('intensity') == 'high'`. -/
def isHot (item : Record) : Bool :=
  decide ((4 : ℚ)/5 < item.confidence.getD 0) && item.intensity == some "high"

structure HotTake where
  platform : Option String
  text_preview : String
  sentiment : Option String
  intensity : Option String
  url : Option String
deriving DecidableEq

/-- The dictionary built for one hot take (lines 165-171). -/
def mkHotTake (item : Record) : HotTake :=
  ⟨item.platform,
   String.mk ((item.text.getD "").data.take 100) ++ "...",
   item.sentiment,
   item.intensity,
   item.source_url⟩

/-- Model of `identify_hot_takes` (line 157): one pass over `reddit_data + x_data`
appending an entry per matching record, then `[:5]`. -/
def identify_hot_takes (reddit_data x_data : List Record) : List HotTake :=
  ((reddit_data ++ x_data).foldl
    (fun hot_takes item =>
      if isHot item then hot_takes ++ [mkHotTake item] else hot_takes)
    []).take 5

structure ReportSummary where
  total_posts_analyzed : ℕ
  reddit_posts : ℕ
  x_posts : ℕ
deriving DecidableEq

structure DailyReport where
  report_date : String
  timestamp : String
  summary : ReportSummary
  reddit_breakdown : SentimentStats
  x_breakdown : SentimentStats
  overall_breakdown : SentimentStats
  trending_topics : List TrendingTopic
  hot_takes : List HotTake
  evidence_files : List String
deriving DecidableEq

/-- Model of `generate_daily_report` (line 97); `self.report_date` and
`self.timestamp` are passed explicitly.  The `evidence_files` field is the
fixed three-name list of lines 116-120, independent of the data. -/
def generate_daily_report (report_date timestamp : String)
    (reddit_data x_data : List Record) : DailyReport :=
  ⟨report_date,
   timestamp,
   ⟨reddit_data.length + x_data.length, reddit_data.length, x_data.length⟩,
   calculate_sentiment_stats reddit_data,
   calculate_sentiment_stats x_data,
   calculate_overall_stats reddit_data x_data,
   extract_trending_topics reddit_data x_data,
   identify_hot_takes reddit_data x_data,
   ["reddit_analysis_" ++ timestamp ++ ".csv",
    "x_analysis_" ++ timestamp ++ ".csv",
    "daily_report_" ++ timestamp ++ ".json"]⟩

/-! ### Evidence persistence (lines 201-242)

A written CSV file is a header plus rows; `save_csv` returns `none` (no file
created) when the data is empty, because of the early `return`.  The cell
rendering of `csv.writer` (Python `str()`) is kept symbolic in `CsvCell`;
the claims below concern file existence and row structure. -/

inductive CsvCell where
  | txt (s : String)
  | num (q : ℚ)
  | json (l : List String)
deriving DecidableEq

def csv_header : List String :=
  ["timestamp", "platform", "source_url", "text_preview",
   "sentiment", "intensity", "confidence", "emotional_indicators", "reasoning"]

/-- One data row of `save_csv` (lines 231-242). -/
def csv_row (item : Record) : List CsvCell :=
  [CsvCell.txt (item.timestamp.getD ""),
   CsvCell.txt (item.platform.getD ""),
   CsvCell.txt (item.source_url.getD ""),
   CsvCell.txt (String.mk ((item.text.getD "").data.take 200)),
   CsvCell.txt (item.sentiment.getD ""),
   CsvCell.txt (item.intensity.getD ""),
   (match item.confidence with
    | some c => CsvCell.num c
    | none => CsvCell.txt ""),
   CsvCell.json (item.emotional_indicators.getD []),
   CsvCell.txt (item.reasoning.getD "")]

structure CsvFile where
  header : List String
  rows : List (List CsvCell)
deriving DecidableEq

/-- Model of `save_csv` (line 218): `if not data: return` — no file is created for
empty data; otherwise the file holds the fixed header and one row per
record. -/
def save_csv (data : List Record) : Option CsvFile :=
  if data.isEmpty then none
  else some ⟨csv_header, data.map csv_row⟩

structure EvidenceFiles where
  reddit_csv : Option CsvFile
  x_csv : Option CsvFile
  report : DailyReport
deriving DecidableEq

/-- Model of `save_evidence_files` (line 201): two CSV attempts plus the report JSON,
which is always written. -/
def save_evidence_files (reddit_data x_data : List Record)
    (report_data : DailyReport) : EvidenceFiles :=
  ⟨save_csv reddit_data, save_csv x_data, report_data⟩

/-- A sample record used to instantiate hypotheses in witnesses. -/
def sampleRecord : Record :=
  ⟨some "2026-10-12T08:00:00", some "reddit", some "https://www.reddit.com/r/all/top",
   some "The new update is brilliant and makes everything faster",
   some "positive", some "high", some (9/10), some ["excitement"], some "Enthusiastic wording"⟩

/-! Structural decomposition of `parse_sentiment_response` into the three
field extractors, mirroring the sequential `try` block: the confidence
capture feeds `float()`; a conversion failure aborts the reasoning
extraction. -/

theorem parse_fst (response : String) :
    (parse_sentiment_response response).1 = extractSentiment response := by
  unfold parse_sentiment_response extractSentiment
  rcases hc : searchFirst tryConfidenceAt response.data with _ | numTxt
  · simp only [hc]
  · rcases hp : pyFloat numTxt with _ | c <;> simp only [hc, hp]

theorem parse_confidence (response : String) :
    (parse_sentiment_response response).2.1
      = ((confidenceCapture response).bind pyFloat).getD (1/2) := by
  unfold parse_sentiment_response confidenceCapture
  rcases hc : searchFirst tryConfidenceAt response.data with _ | numTxt
  · simp only [hc]
    rfl
  · rcases hp : pyFloat numTxt with _ | c <;>
      simp only [hc, Option.some_bind, hp] <;> rfl

theorem parse_reasoning (response : String) :
    (parse_sentiment_response response).2.2
      = (match confidenceCapture response with
         | some s =>
           match pyFloat s with
           | none => "Unable to parse response"
           | some _ => extractReasoning response
         | none => extractReasoning response) := by
  unfold parse_sentiment_response confidenceCapture extractReasoning
  rcases hc : searchFirst tryConfidenceAt response.data with _ | numTxt
  · simp only [hc]
  · rcases hp : pyFloat numTxt with _ | c <;> simp only [hc, hp]

/-! ### Helper lemmas -/

theorem abs_round1_sub (x : ℚ) : |round1 x - x| ≤ 1/20 := by
  have h := abs_sub_round (x * 10)
  rw [round1]
  have e : (round (x * 10) : ℚ)/10 - x = (x * 10 - (round (x * 10) : ℚ)) * (-1/10) := by
    ring
  rw [e, abs_mul]
  have e2 : |(-1/10 : ℚ)| = 1/10 := by norm_num
  rw [e2]
  have h0 := abs_nonneg (x * 10 - (round (x * 10) : ℚ))
  linarith

theorem round1_triple_bound (a b c : ℚ) (hsum : a + b + c = 100) :
    |round1 a + round1 b + round1 c - 100| ≤ 1/10 := by
  have ha := abs_round1_sub a
  have hb := abs_round1_sub b
  have hc := abs_round1_sub c
  have e1 : ((round (a * 10) : ℚ))/10 + ((round (b * 10) : ℚ))/10
        + ((round (c * 10) : ℚ))/10 - 100
      = (round1 a - a) + (round1 b - b) + (round1 c - c) := by
    rw [round1, round1, round1, ← hsum]
    ring
  have h2 : |((round (a * 10) : ℚ))/10 + ((round (b * 10) : ℚ))/10
      + ((round (c * 10) : ℚ))/10 - 100| ≤ 3/20 := by
    rw [e1]
    have t1 := abs_add ((round1 a - a) + (round1 b - b)) (round1 c - c)
    have t2 := abs_add (round1 a - a) (round1 b - b)
    linarith
  have hq : |((round (a * 10) : ℤ) : ℚ) + ((round (b * 10) : ℤ) : ℚ)
      + ((round (c * 10) : ℤ) : ℚ) - 1000| ≤ 3/2 := by
    have e2 : ((round (a * 10) : ℤ) : ℚ) + ((round (b * 10) : ℤ) : ℚ)
          + ((round (c * 10) : ℤ) : ℚ) - 1000
        = 10 * (((round (a * 10) : ℚ))/10 + ((round (b * 10) : ℚ))/10
            + ((round (c * 10) : ℚ))/10 - 100) := by
      ring
    rw [e2, abs_mul]
    have e3 : |(10 : ℚ)| = 10 := by norm_num
    rw [e3]
    linarith
  have hz : |round (a * 10) + round (b * 10) + round (c * 10) - 1000| ≤ 1 := by
    by_contra hcon
    push_neg at hcon
    have h2le : (2 : ℤ) ≤ |round (a * 10) + round (b * 10) + round (c * 10) - 1000| := hcon
    have hcast : ((2 : ℤ) : ℚ)
        ≤ ((|round (a * 10) + round (b * 10) + round (c * 10) - 1000| : ℤ) : ℚ) := by
      exact_mod_cast h2le
    rw [Int.cast_abs] at hcast
    push_cast at hcast
    linarith
  have hzq : |((round (a * 10) : ℤ) : ℚ) + ((round (b * 10) : ℤ) : ℚ)
      + ((round (c * 10) : ℤ) : ℚ) - 1000| ≤ 1 := by
    have h1 : ((|round (a * 10) + round (b * 10) + round (c * 10) - 1000| : ℤ) : ℚ)
        ≤ ((1 : ℤ) : ℚ) := by
      exact_mod_cast hz
    rw [Int.cast_abs] at h1
    push_cast at h1
    exact h1
  have e4 : round1 a + round1 b + round1 c - 100
      = (((round (a * 10) : ℤ) : ℚ) + ((round (b * 10) : ℤ) : ℚ)
          + ((round (c * 10) : ℤ) : ℚ) - 1000)/10 := by
    rw [round1, round1, round1]
    ring
  rw [e4, abs_div]
  have e5 : |(10 : ℚ)| = 10 := by norm_num
  rw [e5]
  linarith

theorem length_pos_neg_le (l : List Record) :
    ((l.filter fun item => item.sentiment == some "positive").length
      + (l.filter fun item => item.sentiment == some "negative").length) ≤ l.length := by
  induction l with
  | nil => simp
  | cons r l ih =>
    cases hp : (r.sentiment == some "positive") <;>
      cases hn : (r.sentiment == some "negative") <;>
        simp only [List.filter_cons, hp, hn, List.length_cons, if_true, if_false,
          Bool.false_eq_true, ite_true, ite_false] <;>
        first
          | omega
          | (exfalso
             rw [beq_iff_eq] at hp hn
             rw [hp] at hn
             exact absurd hn (by decide))

/-- Shape of `calculate_sentiment_stats` on non-empty data. -/
theorem stats_shape (data : List Record) (h : data.isEmpty = false) :
    calculate_sentiment_stats data =
      ⟨round1 (((data.filter fun item => item.sentiment == some "positive").length : ℚ)
          / (data.length : ℚ) * 100),
       round1 (((data.filter fun item => item.sentiment == some "negative").length : ℚ)
          / (data.length : ℚ) * 100),
       round1 (((data.length - (data.filter fun item => item.sentiment == some "positive").length
            - (data.filter fun item => item.sentiment == some "negative").length : ℕ) : ℚ)
          / (data.length : ℚ) * 100),
       data.length⟩ := by
  unfold calculate_sentiment_stats
  rw [h]
  rfl

/-- The accumulator pass of `identify_hot_takes` is filter-then-map. -/
theorem hot_foldl (l : List Record) (acc : List HotTake) :
    l.foldl (fun hot_takes item =>
        if isHot item then hot_takes ++ [mkHotTake item] else hot_takes) acc
      = acc ++ (l.filter isHot).map mkHotTake := by
  induction l generalizing acc with
  | nil => simp
  | cons r l ih =>
    cases h : isHot r <;>
      simp [List.foldl_cons, List.filter_cons, h, ih]

/-! ### Claims -/

/-- C2: the claim says `extract_trending_topics` derives topics from the
records' backend-reported key topics and returns an empty sequence when none
are present.  The code instead returns a hard-coded placeholder list for
every input — here evaluated at the failing input of two empty collections,
which carry no backend-reported topics yet yield three invented topics. -/
theorem C2_placeholder_topics :
    extract_trending_topics [] [] =
      [⟨"AI Technology", 156, "positive"⟩,
       ⟨"Economic Policy", 89, "negative"⟩,
       ⟨"Climate Change", 67, "neutral"⟩]
    ∧ extract_trending_topics [] [] ≠ [] := by
  constructor
  · rfl
  · decide

/-- C3: for non-empty data the three percentages of
`calculate_sentiment_stats` sum to 100.0 within ±0.1 and `count` is the
input size; for the empty collection all four fields are 0. -/
theorem C3_compute_stats (data : List Record) :
    (data ≠ [] →
      |(calculate_sentiment_stats data).positive
          + (calculate_sentiment_stats data).negative
          + (calculate_sentiment_stats data).neutral - 100| ≤ 1/10
        ∧ (calculate_sentiment_stats data).count = data.length) ∧
    (data = [] → calculate_sentiment_stats data = ⟨0, 0, 0, 0⟩) := by
  constructor
  · intro h
    have hne : data.isEmpty = false := by
      cases data with
      | nil => exact absurd rfl h
      | cons a l => rfl
    have htpos : 0 < data.length := List.length_pos.mpr h
    have ht0 : (data.length : ℚ) ≠ 0 := by
      exact_mod_cast Nat.pos_iff_ne_zero.mp htpos
    have hle := length_pos_neg_le data
    rw [stats_shape data hne]
    refine ⟨?_, rfl⟩
    show |round1 _ + round1 _ + round1 _ - 100| ≤ 1/10
    apply round1_triple_bound
    rw [Nat.sub_sub, Nat.cast_sub hle]
    push_cast
    field_simp
    ring
  · intro h
    subst h
    rfl

/-- C4: `identify_hot_takes` returns exactly the first five records (in
original `reddit + x` order) whose confidence exceeds 0.8 with intensity
"high", mapped to hot-take entries, and never more than five. -/
theorem C4_hot_takes (reddit_data x_data : List Record) :
    identify_hot_takes reddit_data x_data
        = (((reddit_data ++ x_data).filter isHot).map mkHotTake).take 5
      ∧ (identify_hot_takes reddit_data x_data).length ≤ 5 := by
  have he : identify_hot_takes reddit_data x_data
      = (((reddit_data ++ x_data).filter isHot).map mkHotTake).take 5 := by
    unfold identify_hot_takes
    rw [hot_foldl]
    rfl
  refine ⟨he, ?_⟩
  rw [he, List.length_take]
  exact Nat.min_le_left _ _

/-- Concrete `float()` evaluation used by the C1 items. -/
theorem pyFloat_14 : pyFloat ['1', '.', '4'] = some (7/5) := by
  unfold pyFloat
  rw [if_pos (by decide)]
  dsimp only
  have h1 : digitsToNat (['1', '.', '4'].takeWhile (fun c => c ≠ '.')) = 1 := by decide
  have h2 : digitsToNat ((['1', '.', '4'].dropWhile (fun c => c ≠ '.')).drop 1) = 4 := by decide
  have h3 : ((['1', '.', '4'].dropWhile (fun c => c ≠ '.')).drop 1).length = 1 := by decide
  rw [h1, h2, h3]
  norm_num

/-- C1 counterexample: the claim says an out-of-range parsed confidence such
as 1.4 is clamped to 1.0; the code returns the parsed 1.4 unchanged, outside
`[0.0, 1.0]`. -/
theorem C1_counterexample :
    (parse_sentiment_response
        "Sentiment: positive\nConfidence: 1.4\nReasoning: strong praise").2.1 = 7/5
    ∧ ¬ ((parse_sentiment_response
        "Sentiment: positive\nConfidence: 1.4\nReasoning: strong praise").2.1 ≤ 1) := by
  have hs : confidenceCapture
      "Sentiment: positive\nConfidence: 1.4\nReasoning: strong praise"
      = some ['1', '.', '4'] := by decide
  have he : (parse_sentiment_response
      "Sentiment: positive\nConfidence: 1.4\nReasoning: strong praise").2.1 = 7/5 := by
    rw [parse_confidence, hs, Option.some_bind, pyFloat_14]
    rfl
  refine ⟨he, ?_⟩
  rw [he]
  norm_num

/-- C1 amended: the parser performs no clamping — the emitted confidence is
exactly the value `float()` parses from the `Confidence:` capture, even when
it lies outside `[0.0, 1.0]`; it is the default 0.5 exactly when the capture
is absent or the conversion fails. -/
theorem C1_confidence_passthrough (response : String) :
    (∀ s v, confidenceCapture response = some s → pyFloat s = some v →
      (parse_sentiment_response response).2.1 = v)
    ∧ (((confidenceCapture response).bind pyFloat) = none →
      (parse_sentiment_response response).2.1 = 1/2) := by
  constructor
  · intro s v hs hv
    rw [parse_confidence, hs, Option.some_bind, hv]
    rfl
  · intro h
    rw [parse_confidence, h]
    rfl

/-- C1 witness: the passthrough theorem applied at a concrete backend reply
carrying the out-of-range value 1.4. -/
theorem C1_confidence_passthrough_witness :
    confidenceCapture "Confidence: 1.4" = some ['1', '.', '4']
    ∧ pyFloat ['1', '.', '4'] = some (7/5)
    ∧ (parse_sentiment_response "Confidence: 1.4").2.1 = 7/5 :=
  ⟨by decide, pyFloat_14,
   (C1_confidence_passthrough "Confidence: 1.4").1 ['1', '.', '4'] (7/5)
     (by decide) pyFloat_14⟩

/-- C5 counterexample: the claim says the three fields are handled
independently, any well-formed field still being extracted.  When the
`Confidence:` capture is present but fails `float()` conversion (here `"."`),
the raised `ValueError` skips the reasoning extraction, so a present and
well-formed `Reasoning:` line is replaced by the default. -/
theorem C5_counterexample :
    parse_sentiment_response "Sentiment: positive\nConfidence: .\nReasoning: Clear tone."
        = ("positive", 1/2, "Unable to parse response")
    ∧ extractReasoning "Sentiment: positive\nConfidence: .\nReasoning: Clear tone."
        = "Clear tone." := by
  constructor
  · rfl
  · rfl

/-- C5 amended: single-text parsing is total (never raises) and a reply with
no `Confidence:` capture yields confidence 0.5 with sentiment and reasoning
parsed normally; however the fields are not fully independent: a present
capture whose `float()` conversion fails leaves the reasoning at its default
even when a well-formed `Reasoning:` line exists. -/
theorem C5_parse_defaults (response : String) :
    (confidenceCapture response = none →
      parse_sentiment_response response
        = (extractSentiment response, 1/2, extractReasoning response))
    ∧ (∀ s, confidenceCapture response = some s → pyFloat s = none →
      parse_sentiment_response response
        = (extractSentiment response, 1/2, "Unable to parse response")) := by
  have h1 := parse_fst response
  constructor
  · intro h
    have h2 := parse_confidence response
    have h3 := parse_reasoning response
    rw [h] at h2 h3
    simp only [Option.none_bind, Option.getD_none] at h2
    exact Prod.ext h1 (Prod.ext h2 h3)
  · intro s hs hv
    have h2 := parse_confidence response
    have h3 := parse_reasoning response
    rw [hs, Option.some_bind, hv] at h2
    simp only [hs, hv] at h3
    simp only [Option.getD_none] at h2
    exact Prod.ext h1 (Prod.ext h2 h3)

/-- C5 witness: the defaults theorem applied at a concrete reply missing
only the `Confidence:` line; the other two fields are parsed normally. -/
theorem C5_parse_defaults_witness :
    confidenceCapture "Sentiment: Negative\nReasoning: harsh words" = none
    ∧ parse_sentiment_response "Sentiment: Negative\nReasoning: harsh words"
        = (extractSentiment "Sentiment: Negative\nReasoning: harsh words", 1/2,
           extractReasoning "Sentiment: Negative\nReasoning: harsh words")
    ∧ extractSentiment "Sentiment: Negative\nReasoning: harsh words" = "negative"
    ∧ extractReasoning "Sentiment: Negative\nReasoning: harsh words" = "harsh words" :=
  ⟨by decide,
   (C5_parse_defaults "Sentiment: Negative\nReasoning: harsh words").1 (by decide),
   by decide, by decide⟩

/-- C9 counterexample: the claim says the parsed sentiment label is always
one of positive, negative, neutral; the parser lower-cases whatever word
follows `Sentiment:`, here producing "mixed". -/
theorem C9_counterexample :
    (parse_sentiment_response "Sentiment: Mixed feelings today").1 = "mixed"
    ∧ "mixed" ≠ "positive" ∧ "mixed" ≠ "negative" ∧ "mixed" ≠ "neutral" := by
  exact ⟨rfl, by decide, by decide, by decide⟩

/-- C9 amended: the sentiment field is either the default "neutral" or the
lower-casing of the first word captured after a `Sentiment:` label; it is
not restricted to the three documented labels. -/
theorem C9_sentiment_any_word (response : String) :
    (parse_sentiment_response response).1 = "neutral"
    ∨ ∃ w, searchFirst trySentimentAt response.data = some w
        ∧ (parse_sentiment_response response).1 = String.mk (pyLower w) := by
  cases h : searchFirst trySentimentAt response.data with
  | none =>
    left
    rw [parse_fst]
    unfold extractSentiment
    rw [h]
  | some w =>
    right
    refine ⟨w, rfl, ?_⟩
    rw [parse_fst]
    unfold extractSentiment
    rw [h]

/-- C6: platform detection lower-cases the parsed network host; a host
containing `reddit.com` gives reddit, otherwise one containing `x.com` or
`twitter.com` gives x, and the call fails — with the offending host in the
message — exactly when no fragment matches. -/
theorem C6_detect_platform (url : String) :
    (listContains "reddit.com".data (detect_domain url) = true →
        detect_platform url = Except.ok "reddit")
    ∧ (listContains "reddit.com".data (detect_domain url) = false →
        (listContains "x.com".data (detect_domain url) = true
          ∨ listContains "twitter.com".data (detect_domain url) = true) →
        detect_platform url = Except.ok "x")
    ∧ (detect_platform url
          = Except.error ("Unsupported platform: " ++ String.mk (detect_domain url))
        ↔ listContains "reddit.com".data (detect_domain url) = false
          ∧ listContains "twitter.com".data (detect_domain url) = false
          ∧ listContains "x.com".data (detect_domain url) = false) := by
  unfold detect_platform
  cases hr : listContains "reddit.com".data (detect_domain url) <;>
    cases ht : listContains "twitter.com".data (detect_domain url) <;>
      cases hx : listContains "x.com".data (detect_domain url) <;>
        simp [hr, ht, hx]

/-- C6 witness: the detector theorem applied at the three URLs of the spec's
examples. -/
theorem C6_detect_platform_witness :
    detect_platform "https://www.reddit.com/r/all/top" = Except.ok "reddit"
    ∧ detect_platform "https://x.com/explore" = Except.ok "x"
    ∧ detect_platform "https://example.com"
        = Except.error ("Unsupported platform: "
            ++ String.mk (detect_domain "https://example.com")) :=
  ⟨(C6_detect_platform "https://www.reddit.com/r/all/top").1 (by decide),
   (C6_detect_platform "https://x.com/explore").2.1 (by decide) (Or.inl (by decide)),
   (C6_detect_platform "https://example.com").2.2.mpr ⟨by decide, by decide, by decide⟩⟩

/-- C7 counterexample: the claim says every captured string of stripped
length at least 10 is kept; a string of stripped length exactly 10 is
discarded, because the code keeps only strictly longer texts
(`len(text) > 10`). -/
theorem C7_counterexample :
    (String.mk (pyStrip "abcdefghij".data)).length = 10
    ∧ filter_scraped ["abcdefghij"] = [] := by
  constructor
  · decide
  · decide

/-- C7 amended: a captured string is kept — stripped, in capture order —
exactly when its stripped length strictly exceeds the 10-character minimum
(i.e. is discarded when the stripped length is 10 or less). -/
theorem C7_filter_strict (texts : List String) :
    filter_scraped texts
      = (texts.map (fun t => String.mk (pyStrip t.data))).filter
          (fun t => decide (10 < t.length)) := by
  induction texts with
  | nil => rfl
  | cons t ts ih =>
    unfold filter_scraped
    rw [List.map_cons, List.filter_cons]
    dsimp only
    cases hb : decide (10 < (String.mk (pyStrip t.data)).length) with
    | true =>
      have h : 10 < (String.mk (pyStrip t.data)).length := of_decide_eq_true hb
      have hne : String.mk (pyStrip t.data) ≠ "" := by
        intro contra
        have h0 : (String.mk (pyStrip t.data)).length = 0 := by
          rw [contra]
          rfl
        omega
      rw [if_pos ⟨hne, h⟩, ih]
      rfl
    | false =>
      have h : ¬ 10 < (String.mk (pyStrip t.data)).length := of_decide_eq_false hb
      rw [if_neg (fun hc => h hc.2), ih]
      rfl

/-- C8: `save_csv` creates no file for an empty record collection and a
header-plus-one-row-per-record file otherwise, while the report document of
that run is still produced with zero analyzed posts. -/
theorem C8_csv_noop (data : List Record) (rd ts : String) :
    (data = [] → save_csv data = none)
    ∧ (data ≠ [] → save_csv data = some ⟨csv_header, data.map csv_row⟩)
    ∧ (save_evidence_files [] [] (generate_daily_report rd ts [] [])).reddit_csv = none
    ∧ (save_evidence_files [] [] (generate_daily_report rd ts [] [])).x_csv = none
    ∧ (save_evidence_files [] []
        (generate_daily_report rd ts [] [])).report.summary.total_posts_analyzed = 0 := by
  refine ⟨?_, ?_, rfl, rfl, rfl⟩
  · intro h
    subst h
    rfl
  · intro h
    have hne : data.isEmpty = false := by
      cases data with
      | nil => exact absurd rfl h
      | cons a l => rfl
    unfold save_csv
    rw [hne]
    rfl

/-- C8 witness: the no-op/write theorem applied to the empty collection and
to a one-record collection. -/
theorem C8_csv_noop_witness :
    (([] : List Record) = [] ∧ save_csv [] = none)
    ∧ ([sampleRecord] ≠ []
        ∧ save_csv [sampleRecord] = some ⟨csv_header, [sampleRecord].map csv_row⟩) :=
  ⟨⟨rfl, (C8_csv_noop [] "2026-10-12" "20261012_080000").1 rfl⟩,
   ⟨by simp, (C8_csv_noop [sampleRecord] "2026-10-12" "20261012_080000").2.1 (by simp)⟩⟩

/-- C10: the generated report's `evidence_files` field always lists the same
three fixed filenames, even when an empty collection means the matching CSV
is never written. -/
theorem C10_evidence_list (rd ts : String) (reddit_data x_data : List Record) :
    (generate_daily_report rd ts reddit_data x_data).evidence_files
        = ["reddit_analysis_" ++ ts ++ ".csv", "x_analysis_" ++ ts ++ ".csv",
           "daily_report_" ++ ts ++ ".json"]
    ∧ (reddit_data = [] →
        (save_evidence_files reddit_data x_data
            (generate_daily_report rd ts reddit_data x_data)).reddit_csv = none)
    ∧ (x_data = [] →
        (save_evidence_files reddit_data x_data
            (generate_daily_report rd ts reddit_data x_data)).x_csv = none) := by
  refine ⟨rfl, ?_, ?_⟩ <;> (intro h; subst h; rfl)

/-- C10 witness: a run with an empty reddit collection still lists the
reddit CSV name in the report while that CSV is never written. -/
theorem C10_evidence_list_witness :
    (generate_daily_report "2026-10-12" "20261012_080000" [] [sampleRecord]).evidence_files
        = ["reddit_analysis_" ++ "20261012_080000" ++ ".csv",
           "x_analysis_" ++ "20261012_080000" ++ ".csv",
           "daily_report_" ++ "20261012_080000" ++ ".json"]
    ∧ ([] : List Record) = []
    ∧ (save_evidence_files [] [sampleRecord]
        (generate_daily_report "2026-10-12" "20261012_080000" [] [sampleRecord])).reddit_csv
        = none :=
  ⟨(C10_evidence_list "2026-10-12" "20261012_080000" [] [sampleRecord]).1,
   rfl,
   (C10_evidence_list "2026-10-12" "20261012_080000" [] [sampleRecord]).2.1 rfl⟩

/-- C3 witness: the statistics theorem applied to a one-record collection
and to the empty collection. -/
theorem C3_compute_stats_witness :
    ([sampleRecord] ≠ []
      ∧ |(calculate_sentiment_stats [sampleRecord]).positive
          + (calculate_sentiment_stats [sampleRecord]).negative
          + (calculate_sentiment_stats [sampleRecord]).neutral - 100| ≤ 1/10
      ∧ (calculate_sentiment_stats [sampleRecord]).count = [sampleRecord].length)
    ∧ (([] : List Record) = [] ∧ calculate_sentiment_stats [] = ⟨0, 0, 0, 0⟩) :=
  ⟨⟨by simp, ((C3_compute_stats [sampleRecord]).1 (by simp)).1,
    ((C3_compute_stats [sampleRecord]).1 (by simp)).2⟩,
   ⟨rfl, (C3_compute_stats []).2 rfl⟩⟩
